import Mathlib

set_option maxRecDepth 100000

/-!
# Verification of the CF-RU5102 UHF RFID reader driver protocol layer

Shallow embedding of `src/lib.rs` and `src/error.rs` (crate `ru5102`):
the MCRF4XX CRC-16 engine, the command/response codecs, the per-operation
payload builders, the status classifier, and the response post-processing
of the `Reader` facade methods.  Bytes are modelled as `Nat` with explicit
`% 256` / `% 65536` where the Rust code truncates (u8 casts, u16 arithmetic);
panicking paths (failed `assert_eq!`, out-of-bounds indexing, `.unwrap()`)
are modelled by an explicit `panic` outcome.
-/

namespace RU5102

/-! ## CRC engine (`Reader::calculate_crc`, crc16 crate, MCRF4XX variant)

MCRF4XX: reflected CRC-16, polynomial 0x8408 (bit-reversed 0x1021),
initial value 0xFFFF, no final xor. -/

/-- One shift step of the reflected CRC: shift right, xor the polynomial
when the dropped bit was set. -/
def crcRound (c : Nat) : Nat :=
  if c % 2 = 1 then (c / 2) ^^^ 0x8408 else c / 2

/-- Fold one input byte into the running CRC state: xor it in, then run
eight shift steps. -/
def crcByte (c b : Nat) : Nat :=
  crcRound^[8] (c ^^^ b)

/-- `Reader::calculate_crc` (lib.rs:302): `State::<MCRF4XX>::calculate(data)`. -/
def calculate_crc (data : List Nat) : Nat :=
  data.foldl crcByte 0xFFFF

/-! ## Command types and status codes -/

/-- `CommandType` (lib.rs:24): the operation codes the driver knows. -/
inductive CommandType where
  | Inventory | ReadData | WriteData | WriteEPC | KillTag | Lock
  | BlockErase | ReadProtect | ReadProtectWithoutEPC | ResetReadProtect
  | CheckReadProtect | EASAlarm | CheckEASAlarm | BlockLock
  | InventorySingle | BlockWrite
  | InventorySignal6B | InventoryMultiple6B | ReadData6B | WriteData6B
  | CheckLock6B | Lock6B
  | GetReaderInformation | SetRegion | SetAddress | SetScanTime
  | SetBaudRate | SetPower | AcoustoOpticControl
  deriving DecidableEq, Repr, Fintype

/-- The wire value of each `CommandType` (its `#[repr]` discriminant,
read off by `self.command as u8`). -/
def CommandType.code : CommandType → Nat
  | .Inventory => 0x01 | .ReadData => 0x02 | .WriteData => 0x03
  | .WriteEPC => 0x04 | .KillTag => 0x05 | .Lock => 0x06
  | .BlockErase => 0x07 | .ReadProtect => 0x08
  | .ReadProtectWithoutEPC => 0x09 | .ResetReadProtect => 0x0a
  | .CheckReadProtect => 0x0b | .EASAlarm => 0x0c | .CheckEASAlarm => 0x0d
  | .BlockLock => 0x0e | .InventorySingle => 0x0f | .BlockWrite => 0x10
  | .InventorySignal6B => 0x50 | .InventoryMultiple6B => 0x51
  | .ReadData6B => 0x52 | .WriteData6B => 0x53 | .CheckLock6B => 0x54
  | .Lock6B => 0x55
  | .GetReaderInformation => 0x21 | .SetRegion => 0x22 | .SetAddress => 0x24
  | .SetScanTime => 0x25 | .SetBaudRate => 0x28 | .SetPower => 0x2F
  | .AcoustoOpticControl => 0x33

/-- `ResponseStatus` (lib.rs:61): the device status codes the driver knows. -/
inductive ResponseStatus where
  | OK | ReturnBeforeInventoryFinished | ScanTimeOverflow | MoreData
  | ReaderFlashFull | AccessPasswordError | KillTagError | KillPasswordZero
  | CommandNotSupported | SaveFail | CannotAdjust
  | CommandExecuteError | PoorCommunication | NoTags | TagError
  | WrongLength | IllegalCommand | ParameterError
  deriving DecidableEq, Repr, Fintype

/-- `TryFromPrimitive` for `ResponseStatus` (its `#[repr(u8)]` values):
`ResponseStatus::try_from(byte)`, `none` when the byte is not enumerated. -/
def ResponseStatus.tryFrom : Nat → Option ResponseStatus
  | 0x00 => some .OK
  | 0x01 => some .ReturnBeforeInventoryFinished
  | 0x02 => some .ScanTimeOverflow
  | 0x03 => some .MoreData
  | 0x04 => some .ReaderFlashFull
  | 0x05 => some .AccessPasswordError
  | 0x09 => some .KillTagError
  | 0x0A => some .KillPasswordZero
  | 0x0B => some .CommandNotSupported
  | 0x13 => some .SaveFail
  | 0x14 => some .CannotAdjust
  | 0xF9 => some .CommandExecuteError
  | 0xFA => some .PoorCommunication
  | 0xFB => some .NoTags
  | 0xFC => some .TagError
  | 0xFD => some .WrongLength
  | 0xFE => some .IllegalCommand
  | 0xFF => some .ParameterError
  | _ => none

/-- `ResponseStatus::is_success` (lib.rs:88). -/
def ResponseStatus.is_success : ResponseStatus → Bool
  | .OK => true
  | .ReturnBeforeInventoryFinished => true
  | .ScanTimeOverflow => true
  | .MoreData => true
  | _ => false

/-- The `Debug` rendering of a `ResponseStatus`, as interpolated by
`format!("Invalid status response: {:?}", other)` in error.rs:47. -/
def ResponseStatus.debugStr : ResponseStatus → String
  | .OK => "OK"
  | .ReturnBeforeInventoryFinished => "ReturnBeforeInventoryFinished"
  | .ScanTimeOverflow => "ScanTimeOverflow"
  | .MoreData => "MoreData"
  | .ReaderFlashFull => "ReaderFlashFull"
  | .AccessPasswordError => "AccessPasswordError"
  | .KillTagError => "KillTagError"
  | .KillPasswordZero => "KillPasswordZero"
  | .CommandNotSupported => "CommandNotSupported"
  | .SaveFail => "SaveFail"
  | .CannotAdjust => "CannotAdjust"
  | .CommandExecuteError => "CommandExecuteError"
  | .PoorCommunication => "PoorCommunication"
  | .NoTags => "NoTags"
  | .TagError => "TagError"
  | .WrongLength => "WrongLength"
  | .IllegalCommand => "IllegalCommand"
  | .ParameterError => "ParameterError"

/-! ## Error taxonomy (`error.rs`) -/

/-- `Error` (error.rs:9).  The payload of the `Io` variant (an
`std::io::Error`) is irrelevant to the claims and elided. -/
inductive Error where
  | IoError : Error
  | Communication : ResponseStatus → Error
  | Protocol : ResponseStatus → Error
  | Program : String → Error
  deriving DecidableEq, Repr

/-- `impl From<ResponseStatus> for Error` (error.rs:32). -/
def errorFromStatus (e : ResponseStatus) : Error :=
  match e with
  | .PoorCommunication => .Communication e
  | .NoTags => .Communication e
  | .AccessPasswordError => .Protocol e
  | .KillTagError => .Protocol e
  | .KillPasswordZero => .Protocol e
  | .CommandNotSupported => .Protocol e
  | .WrongLength => .Program "Wrong command length"
  | .IllegalCommand => .Program "Illegal command"
  | .ParameterError => .Program "Parameter error"
  | other => .Program ("Invalid status response: " ++ other.debugStr)

/-! ## Command codec (`Command::to_bytes`, lib.rs:107) -/

/-- `Command` (lib.rs:100). -/
structure Command where
  address : Nat
  command : CommandType
  data : List Nat
  deriving DecidableEq, Repr

/-- `Command::to_bytes` (lib.rs:107): `[length, address, operation,
...payload, crc_lo, crc_hi]`.  The Rust `(self.data.len() + 4) as u8`
truncates, hence the `% 256`; the CRC low/high bytes are `crc & 0xFF`
and `(crc >> 8) & 0xFF`. -/
def Command.to_bytes (c : Command) : List Nat :=
  let pkt : List Nat := ((c.data.length + 4) % 256) :: c.address :: c.command.code :: c.data
  let crc := calculate_crc pkt
  pkt ++ [crc % 256, (crc / 256) % 256]

/-! ## Response codec (`Response::from_bytes`, lib.rs:130) -/

/-- `Response` (lib.rs:122). -/
structure Response where
  address : Nat
  command : Nat
  status : ResponseStatus
  data : List Nat
  deriving DecidableEq, Repr

/-- Outcome of running fallible Rust code that can also panic:
`panic` models a failed `assert_eq!`, an out-of-bounds index/slice, or an
`.unwrap()` on a failed conversion; `err` models `Err(...)`; `ok` models
`Ok(...)`. -/
inductive Outcome (α : Type) where
  | panic : Outcome α
  | err : Error → Outcome α
  | ok : α → Outcome α
  deriving DecidableEq, Repr

/-- `Response::from_bytes` (lib.rs:130), panics made explicit:
* `bytes[0]` on an empty buffer panics;
* `assert_eq!(bytes[0] as usize, bytes.len() - 1)` panics on mismatch;
* `&bytes[0..len - 2]` panics when `len < 2` (usize underflow);
* a CRC mismatch returns `Err(Error::Program("Bad CRC"))`;
* `&bytes[1..len - 2]` panics when `len < 3`;
* `payload[0]`/`payload[1]`/`payload[2]` panic when the payload is
  shorter than 3 bytes;
* `ResponseStatus::try_from(payload[2]).unwrap()` panics on an
  unrecognized status byte. -/
def Response.from_bytes (bytes : List Nat) : Outcome Response :=
  if bytes.length = 0 then .panic
  else if bytes.headD 0 ≠ bytes.length - 1 then .panic
  else if bytes.length < 2 then .panic
  else if bytes.getD (bytes.length - 1) 0 * 256 + bytes.getD (bytes.length - 2) 0
      ≠ calculate_crc (bytes.take (bytes.length - 2)) then .err (.Program "Bad CRC")
  else if bytes.length < 3 then .panic
  else if ((bytes.drop 1).take (bytes.length - 3)).length < 3 then .panic
  else
    match ResponseStatus.tryFrom (((bytes.drop 1).take (bytes.length - 3)).getD 2 0) with
    | none => .panic
    | some st =>
      .ok { address := ((bytes.drop 1).take (bytes.length - 3)).getD 0 0,
            command := ((bytes.drop 1).take (bytes.length - 3)).getD 1 0,
            status := st,
            data := ((bytes.drop 1).take (bytes.length - 3)).drop 3 }

/-! ## Operation payload builders (lib.rs:161-263) -/

/-- `MemoryLocation` (lib.rs:162). -/
inductive MemoryLocation where
  | Password | EPC | TID | User
  deriving DecidableEq, Repr

/-- The `#[repr]` discriminant of a `MemoryLocation` (`self.location as u8`). -/
def MemoryLocation.code : MemoryLocation → Nat
  | .Password => 0x00 | .EPC => 0x01 | .TID => 0x02 | .User => 0x03

/-- `ReadCommand` (lib.rs:170). -/
structure ReadCommand where
  epc : List Nat
  location : MemoryLocation
  start_address : Nat
  count : Nat
  password : Option (List Nat)
  mask_address : Option Nat
  mask_length : Option Nat
  deriving DecidableEq, Repr

/-- `ReadCommand::to_bytes` (lib.rs:181).  `self.epc.len() as u8 / 2`
casts to u8 first, then halves, hence `% 256 / 2`.  The two trailing
`if let` pushes for the mask bytes are independent of each other. -/
def ReadCommand.to_bytes (rc : ReadCommand) : List Nat :=
  ((rc.epc.length % 256) / 2 ::
      rc.epc ++ [rc.location.code, rc.start_address, rc.count] ++
      (match rc.password with | some p => p | none => [0, 0, 0, 0])) ++
    (match rc.mask_address with | some a => [a] | none => []) ++
    (match rc.mask_length with | some l => [l] | none => [])

/-- `WriteCommand` (lib.rs:205). -/
structure WriteCommand where
  epc : List Nat
  location : MemoryLocation
  start_address : Nat
  data : List Nat
  password : Option (List Nat)
  mask_address : Option Nat
  mask_length : Option Nat
  deriving DecidableEq, Repr

/-- `WriteCommand::to_bytes` (lib.rs:216). -/
def WriteCommand.to_bytes (wc : WriteCommand) : List Nat :=
  ((wc.data.length % 256) / 2 :: (wc.epc.length % 256) / 2 ::
      wc.epc ++ [wc.location.code, wc.start_address] ++ wc.data ++
      (match wc.password with | some p => p | none => [0, 0, 0, 0])) ++
    (match wc.mask_address with | some a => [a] | none => []) ++
    (match wc.mask_length with | some l => [l] | none => [])

/-- `KillCommand` (lib.rs:241). -/
structure KillCommand where
  epc : List Nat
  password : List Nat
  mask_address : Option Nat
  mask_length : Option Nat
  deriving DecidableEq, Repr

/-- `KillCommand::to_bytes` (lib.rs:249). -/
def KillCommand.to_bytes (kc : KillCommand) : List Nat :=
  ((kc.epc.length % 256) / 2 :: kc.epc ++ kc.password) ++
    (match kc.mask_address with | some a => [a] | none => []) ++
    (match kc.mask_length with | some l => [l] | none => [])

/-- The bytes a `ReadCommand` serializes before the optional mask fields
(lib.rs:182-193). -/
def ReadCommand.preMaskBytes (rc : ReadCommand) : List Nat :=
  (rc.epc.length % 256) / 2 ::
    rc.epc ++ [rc.location.code, rc.start_address, rc.count] ++
    (match rc.password with | some p => p | none => [0, 0, 0, 0])

/-- The bytes a `WriteCommand` serializes before the optional mask fields
(lib.rs:217-229). -/
def WriteCommand.preMaskBytes (wc : WriteCommand) : List Nat :=
  (wc.data.length % 256) / 2 :: (wc.epc.length % 256) / 2 ::
    wc.epc ++ [wc.location.code, wc.start_address] ++ wc.data ++
    (match wc.password with | some p => p | none => [0, 0, 0, 0])

/-- The bytes a `KillCommand` serializes before the optional mask fields
(lib.rs:250-254). -/
def KillCommand.preMaskBytes (kc : KillCommand) : List Nat :=
  (kc.epc.length % 256) / 2 :: kc.epc ++ kc.password

/-! ## ReaderInformation (lib.rs:150, 265) -/

/-- `ReaderInformation` (lib.rs:151). -/
structure ReaderInformation where
  version : List Nat
  reader_type : Nat
  supported_protocols : Nat
  max_freq : Nat
  min_freq : Nat
  power : Nat
  scan_time : Nat
  deriving DecidableEq, Repr

/-- `ReaderInformation::from_bytes` (lib.rs:266); `none` models the
`assert_eq!(bytes.len(), 8)` panic. -/
def ReaderInformation.from_bytes (bytes : List Nat) : Option ReaderInformation :=
  if bytes.length = 8 then
    some { version := bytes.take 2, reader_type := bytes.getD 2 0,
           supported_protocols := bytes.getD 3 0, max_freq := bytes.getD 4 0,
           min_freq := bytes.getD 5 0, power := bytes.getD 6 0,
           scan_time := bytes.getD 7 0 }
  else none

/-! ## Inventory tag-list parser (lib.rs:354-363)

The Rust loop walks `response.data` with a running `offset`, reading a
`tag_len` byte then slicing `tag_len` tag bytes, `num_tags` times, with no
bounds checks.  It is re-expressed structurally on the suffix of the data
that starts at `offset`: reading `data[offset]` with `offset` past the end
is the `[]` case, and the slice `data[offset+1 .. offset+1+tag_len]`
overrunning the end is the `tagLen > rest.length` case; both panic
(`none`). -/

/-- The per-tag loop of `Reader::inventory` (lib.rs:358-363): `n` tags
remain to be read from the given suffix of the payload. -/
def parseTagRecords : Nat → List Nat → Option (List (List Nat))
  | 0, _ => some []
  | _ + 1, [] => none
  | n + 1, tagLen :: rest =>
    if tagLen ≤ rest.length then
      match parseTagRecords n (rest.drop tagLen) with
      | some tags => some (rest.take tagLen :: tags)
      | none => none
    else none

/-- The tag-list parse of `Reader::inventory` (lib.rs:354-363):
`response.data[0]` is the tag count (panicking on an empty payload),
followed by the per-tag loop. -/
def parseInventoryData : List Nat → Option (List (List Nat))
  | [] => none
  | numTags :: rest => parseTagRecords numTags rest

/-- Well-formedness of an inventory success payload: it is nonempty, and
its declared tag count is matched by that many `[tag_len, ...tag_bytes]`
records actually present.  (Trailing bytes after the last record are
allowed: the code never checks the offset against the total length.) -/
def wellFormedRecords : Nat → List Nat → Bool
  | 0, _ => true
  | _ + 1, [] => false
  | n + 1, tagLen :: rest =>
    if tagLen ≤ rest.length then wellFormedRecords n (rest.drop tagLen) else false

/-- A payload is well-formed when it has a tag-count byte and that many
complete records after it. -/
def wellFormedInventory : List Nat → Bool
  | [] => false
  | numTags :: rest => wellFormedRecords numTags rest

/-! ## Reader facade response handling (lib.rs:324-411)

Each public `Reader` method is one `send_receive` round trip (serial I/O,
out of scope) followed by pure post-processing of the decoded `Response`.
The handlers below are that post-processing, verbatim from the source. -/

/-- `Reader::inventory` (lib.rs:340) after `send_receive`: `NoTags` is
special-cased to an empty list before the success check; any other
non-success status is converted through `Error::from`; a success status
runs the tag-list parse, which may panic. -/
def inventoryHandle (r : Response) : Outcome (List (List Nat)) :=
  if r.status = .NoTags then .ok []
  else if r.status.is_success = false then .err (errorFromStatus r.status)
  else
    match parseInventoryData r.data with
    | none => .panic
    | some tags => .ok tags

/-- `Reader::reader_information` (lib.rs:324) after `send_receive`. -/
def readerInformationHandle (r : Response) : Outcome ReaderInformation :=
  if r.status.is_success = false then .err (errorFromStatus r.status)
  else
    match ReaderInformation.from_bytes r.data with
    | none => .panic
    | some ri => .ok ri

/-- `Reader::read_data` (lib.rs:368) after `send_receive`. -/
def readDataHandle (r : Response) : Outcome (List Nat) :=
  if r.status.is_success = false then .err (errorFromStatus r.status)
  else .ok r.data

/-- `Reader::write_data` (lib.rs:383) after `send_receive`. -/
def writeDataHandle (r : Response) : Outcome Unit :=
  if r.status.is_success = false then .err (errorFromStatus r.status)
  else .ok ()

/-- `Reader::kill` (lib.rs:399) after `send_receive`. -/
def killHandle (r : Response) : Outcome Unit :=
  if r.status.is_success = false then .err (errorFromStatus r.status)
  else .ok ()

/-! ## Status classification -/

/-- The four outcome classes of the status classifier. -/
inductive StatusClass where
  | success | communication | protocol | program
  deriving DecidableEq, Repr, Fintype

/-- The classification the code implements: the success check is
`ResponseStatus::is_success` (lib.rs:88) and every non-success status is
converted through `impl From<ResponseStatus> for Error` (error.rs:32).
The `IoError` arm is unreachable: `errorFromStatus` never produces it. -/
def classifyStatus (s : ResponseStatus) : StatusClass :=
  if s.is_success then .success
  else
    match errorFromStatus s with
    | .IoError => .program
    | .Communication _ => .communication
    | .Protocol _ => .protocol
    | .Program _ => .program

/-- The classification table as the spec states it (§4.5): the four
success codes, two communication codes, four protocol codes, and every
remaining enumerated code is a program error. -/
def specStatusClass : ResponseStatus → StatusClass
  | .OK | .ReturnBeforeInventoryFinished | .ScanTimeOverflow | .MoreData => .success
  | .PoorCommunication | .NoTags => .communication
  | .AccessPasswordError | .KillTagError | .KillPasswordZero | .CommandNotSupported => .protocol
  | .WrongLength | .IllegalCommand | .ParameterError
  | .ReaderFlashFull | .SaveFail | .CannotAdjust | .CommandExecuteError | .TagError => .program

/-! ## Helper lemmas -/

/-- Every operation code fits in a byte. -/
theorem CommandType.code_lt (op : CommandType) : op.code < 256 := by
  cases op <;> decide

/-- One CRC shift step stays within 16 bits. -/
theorem crcRound_lt {c : Nat} (h : c < 2 ^ 16) : crcRound c < 2 ^ 16 := by
  unfold crcRound
  split
  · exact Nat.xor_lt_two_pow (lt_of_le_of_lt (Nat.div_le_self c 2) h) (by norm_num)
  · exact lt_of_le_of_lt (Nat.div_le_self c 2) h

/-- Iterated CRC shift steps stay within 16 bits. -/
theorem crcRound_iterate_lt (n : Nat) {c : Nat} (h : c < 2 ^ 16) :
    crcRound^[n] c < 2 ^ 16 := by
  induction n generalizing c with
  | zero => simpa using h
  | succ n ih =>
    rw [Function.iterate_succ_apply]
    exact ih (crcRound_lt h)

/-- Folding one byte into a 16-bit CRC state stays within 16 bits. -/
theorem crcByte_lt {c b : Nat} (hc : c < 2 ^ 16) (hb : b < 256) :
    crcByte c b < 2 ^ 16 :=
  crcRound_iterate_lt 8 (Nat.xor_lt_two_pow hc (lt_trans hb (by norm_num)))

/-- The CRC fold keeps the state within 16 bits over any byte list. -/
theorem foldl_crcByte_lt :
    ∀ (l : List Nat) (c : Nat), c < 2 ^ 16 → (∀ x ∈ l, x < 256) →
      l.foldl crcByte c < 2 ^ 16
  | [], _, hc, _ => hc
  | b :: l, c, hc, hl =>
    foldl_crcByte_lt l (crcByte c b)
      (crcByte_lt hc (hl b (List.mem_cons_self b l)))
      (fun x hx => hl x (List.mem_cons_of_mem b hx))

/-- `calculate_crc` of a byte list is a 16-bit value, as it is in the
Rust code by the `u16` type. -/
theorem calculate_crc_lt (data : List Nat) (h : ∀ x ∈ data, x < 256) :
    calculate_crc data < 65536 := by
  have := foldl_crcByte_lt data 0xFFFF (by norm_num) h
  simpa [calculate_crc] using this

/-- Decoding a buffer with a correct length prefix and a correct CRC
trailer reaches the status dispatch: the result is determined by the
three header bytes and the remaining payload.  `mid` is the buffer
between the length prefix and the CRC trailer. -/
theorem from_bytes_framed (mid : List Nat) (h3 : 3 ≤ mid.length)
    (hlen : mid.length + 2 ≤ 255) (hmid : ∀ x ∈ mid, x < 256) :
    Response.from_bytes ((mid.length + 2) :: mid ++
        [calculate_crc ((mid.length + 2) :: mid) % 256,
         calculate_crc ((mid.length + 2) :: mid) / 256 % 256])
      = match ResponseStatus.tryFrom (mid.getD 2 0) with
        | none => .panic
        | some st =>
          .ok { address := mid.getD 0 0, command := mid.getD 1 0,
                status := st, data := mid.drop 3 } := by
  have hcrc : calculate_crc ((mid.length + 2) :: mid) < 65536 := by
    refine calculate_crc_lt _ ?_
    intro x hx
    rcases List.mem_cons.mp hx with h | h
    · omega
    · exact hmid x h
  set crc := calculate_crc ((mid.length + 2) :: mid) with hcrcdef
  have hblen : (((mid.length + 2) :: (mid ++ [crc % 256, crc / 256 % 256])) : List Nat).length
      = mid.length + 3 := by simp
  have e1 : mid.length + 3 - 1 = mid.length + 2 := by omega
  have e2 : mid.length + 3 - 2 = mid.length + 1 := by omega
  have e3 : mid.length + 3 - 3 = mid.length := by omega
  have hdrop : (((mid.length + 2) :: (mid ++ [crc % 256, crc / 256 % 256])) : List Nat).drop 1
      = mid ++ [crc % 256, crc / 256 % 256] := rfl
  have htakemid : (mid ++ [crc % 256, crc / 256 % 256]).take mid.length = mid :=
    List.take_left mid [crc % 256, crc / 256 % 256]
  have htake1 : (((mid.length + 2) :: (mid ++ [crc % 256, crc / 256 % 256])) : List Nat).take (mid.length + 1)
      = (mid.length + 2) :: mid := by
    rw [List.take_succ_cons, htakemid]
  have hgethi : (((mid.length + 2) :: (mid ++ [crc % 256, crc / 256 % 256])) : List Nat).getD (mid.length + 2) 0
      = crc / 256 % 256 := by
    rw [List.getD_cons_succ, List.getD_append_right mid _ _ _ (by omega)]
    simp
  have hgetlo : (((mid.length + 2) :: (mid ++ [crc % 256, crc / 256 % 256])) : List Nat).getD (mid.length + 1) 0
      = crc % 256 := by
    rw [List.getD_cons_succ, List.getD_append_right mid _ _ _ (by omega)]
    simp
  simp only [Response.from_bytes, List.cons_append, hblen, List.headD_cons, e1, e2, e3,
    hdrop, htakemid, htake1, hgethi, hgetlo]
  rw [if_neg (by omega), if_neg (by omega), if_neg (by omega),
    if_neg (by rw [← hcrcdef]; omega), if_neg (by omega), if_neg (by omega)]

/-! ## Claim theorems -/

/-- C4: the status classification implemented by `ResponseStatus::is_success`
plus `impl From<ResponseStatus> for Error` is total and maps each enumerated
status to exactly the class the spec's table assigns. -/
theorem status_classification_matches_table :
    ∀ s : ResponseStatus, classifyStatus s = specStatusClass s := by
  decide

/-- C5: a `NoTags` response makes `Reader::inventory` return `Ok([])`, while
`reader_information`, `read_data`, `write_data` and `kill` turn `NoTags` —
like every non-success status — into the typed error `Error::from(status)`
(for `NoTags`, `Communication(NoTags)`). -/
theorem noTags_empty_inventory_error_elsewhere :
    (∀ r : Response, r.status = .NoTags →
      inventoryHandle r = .ok [] ∧
      readerInformationHandle r = .err (.Communication .NoTags) ∧
      readDataHandle r = .err (.Communication .NoTags) ∧
      writeDataHandle r = .err (.Communication .NoTags) ∧
      killHandle r = .err (.Communication .NoTags)) ∧
    (∀ r : Response, r.status.is_success = false →
      readerInformationHandle r = .err (errorFromStatus r.status) ∧
      readDataHandle r = .err (errorFromStatus r.status) ∧
      writeDataHandle r = .err (errorFromStatus r.status) ∧
      killHandle r = .err (errorFromStatus r.status)) := by
  constructor
  · intro r h
    obtain ⟨a, c, st, d⟩ := r
    simp only at h
    subst h
    exact ⟨rfl, rfl, rfl, rfl, rfl⟩
  · intro r h
    exact ⟨by simp only [readerInformationHandle]; rw [if_pos h],
           by simp only [readDataHandle]; rw [if_pos h],
           by simp only [writeDataHandle]; rw [if_pos h],
           by simp only [killHandle]; rw [if_pos h]⟩

/-- Witness for C5 at a concrete `NoTags` response. -/
theorem noTags_empty_inventory_witness :
    inventoryHandle ⟨0, 1, .NoTags, []⟩ = .ok [] ∧
    killHandle ⟨0, 5, .NoTags, []⟩ = .err (.Communication .NoTags) :=
  ⟨(noTags_empty_inventory_error_elsewhere.1 ⟨0, 1, .NoTags, []⟩ rfl).1,
   (noTags_empty_inventory_error_elsewhere.1 ⟨0, 5, .NoTags, []⟩ rfl).2.2.2.2⟩

/-- The per-tag loop succeeds exactly on well-formed record sequences. -/
theorem parseTagRecords_isSome_eq (n : Nat) :
    ∀ l : List Nat, (parseTagRecords n l).isSome = wellFormedRecords n l := by
  induction n with
  | zero => intro l; rfl
  | succ n ih =>
    intro l
    cases l with
    | nil => rfl
    | cons tagLen rest =>
      simp only [parseTagRecords, wellFormedRecords]
      by_cases h : tagLen ≤ rest.length
      · rw [if_pos h, if_pos h, ← ih (rest.drop tagLen)]
        cases hp : parseTagRecords n (rest.drop tagLen) <;> simp [hp]
      · rw [if_neg h, if_neg h]
        rfl

/-- The inventory payload parse succeeds exactly on well-formed payloads. -/
theorem parseInventoryData_isSome_eq (d : List Nat) :
    (parseInventoryData d).isSome = wellFormedInventory d := by
  cases d with
  | nil => rfl
  | cons n rest => exact parseTagRecords_isSome_eq n rest

/-- C10: on a success-status response the inventory tag-list parser is
partial — it panics (out-of-bounds access) exactly when the payload is not
well-formed: empty, or too short for its declared tag count and per-tag
length bytes. -/
theorem inventory_parse_panics_iff (a c : Nat) (st : ResponseStatus) (d : List Nat)
    (hs : st.is_success = true) :
    inventoryHandle ⟨a, c, st, d⟩ = .panic ↔ wellFormedInventory d = false := by
  have hnt : st ≠ ResponseStatus.NoTags := by
    intro he
    rw [he] at hs
    exact absurd hs (by decide)
  simp only [inventoryHandle]
  rw [if_neg hnt, if_neg (by rw [hs]; simp)]
  rw [← parseInventoryData_isSome_eq]
  cases hp : parseInventoryData d <;> simp [hp]

/-- Witness for C10: the empty success payload panics
(`response.data[0]` is out of bounds). -/
theorem inventory_parse_panics_iff_witness :
    inventoryHandle ⟨0, 1, .OK, []⟩ = .panic :=
  (inventory_parse_panics_iff 0 1 .OK [] rfl).mpr rfl

/-- C9 counterexample: on the spec's example payload the second record
declares `tag_len = 2`, so the code returns the two-byte tag
`[0x11, 0x22]`, not the four-byte `[0x11, 0x22, 0x33, 0x44]` the claim
expects. -/
theorem inventory_parse_vector_cex :
    inventoryHandle ⟨0, 1, .OK, [2, 4, 0xAA, 0xBB, 0xCC, 0xDD, 2, 0x11, 0x22, 0x33, 0x44]⟩
      = .ok [[0xAA, 0xBB, 0xCC, 0xDD], [0x11, 0x22]] ∧
    ([[0xAA, 0xBB, 0xCC, 0xDD], [0x11, 0x22]] : List (List Nat))
      ≠ [[0xAA, 0xBB, 0xCC, 0xDD], [0x11, 0x22, 0x33, 0x44]] := by
  decide

/-- C9 amended: with the second length byte 4 (matching the 4-byte tag its
record carries), the parser yields exactly the two claimed tags, for any
address and echoed command byte. -/
theorem inventory_parse_vector (a c : Nat) :
    inventoryHandle ⟨a, c, .OK, [2, 4, 0xAA, 0xBB, 0xCC, 0xDD, 4, 0x11, 0x22, 0x33, 0x44]⟩
      = .ok [[0xAA, 0xBB, 0xCC, 0xDD], [0x11, 0x22, 0x33, 0x44]] := by
  rfl

/-- C8 counterexample: a `ReadCommand` with `mask_address` supplied but
`mask_length` absent serializes the mask-address byte alone — the payload
contains exactly one of the pair. -/
theorem mask_fields_cex :
    ReadCommand.to_bytes ⟨[], .EPC, 0, 1, none, some 7, none⟩
      = [0, 1, 0, 1, 0, 0, 0, 0, 7] ∧
    ReadCommand.to_bytes ⟨[], .EPC, 0, 1, none, none, none⟩
      = [0, 1, 0, 1, 0, 0, 0, 0] := by
  decide

/-- C8 amended: in all three builders the two optional mask bytes are
appended independently — each contributes its byte exactly when present, so
supplying only one of the pair emits exactly that one byte. -/
theorem mask_fields_appended_independently :
    ∀ (rc : ReadCommand) (wc : WriteCommand) (kc : KillCommand),
      rc.to_bytes = rc.preMaskBytes ++ rc.mask_address.toList ++ rc.mask_length.toList ∧
      wc.to_bytes = wc.preMaskBytes ++ wc.mask_address.toList ++ wc.mask_length.toList ∧
      kc.to_bytes = kc.preMaskBytes ++ kc.mask_address.toList ++ kc.mask_length.toList := by
  intro rc wc kc
  refine ⟨?_, ?_, ?_⟩
  · obtain ⟨epc, loc, sa, cnt, pw, ma, ml⟩ := rc
    cases ma <;> cases ml <;>
      simp [ReadCommand.to_bytes, ReadCommand.preMaskBytes, Option.toList]
  · obtain ⟨epc, loc, sa, dt, pw, ma, ml⟩ := wc
    cases ma <;> cases ml <;>
      simp [WriteCommand.to_bytes, WriteCommand.preMaskBytes, Option.toList]
  · obtain ⟨epc, pw, ma, ml⟩ := kc
    cases ma <;> cases ml <;>
      simp [KillCommand.to_bytes, KillCommand.preMaskBytes, Option.toList]

/-- C6 counterexample: a 252-byte payload makes `Command::to_bytes` silently
emit a packet whose length byte is `(252 + 4) % 256 = 0`, not `252 + 4`;
serialization never fails. -/
theorem to_bytes_oversize_cex :
    (Command.to_bytes ⟨0, .Inventory, List.replicate 252 0⟩).headD 0 = 0 ∧
    252 + 4 ≠ 0 := by
  exact ⟨rfl, by decide⟩

/-- C6 amended: `Command::to_bytes` is total (it cannot fail); its length
byte is `(payload.length + 4) % 256`, which equals `payload.length + 4`
exactly when the payload is at most 251 bytes; for longer payloads the
emitted length byte silently disagrees with `payload.length + 4`. -/
theorem to_bytes_length_byte (c : Command) :
    (c.to_bytes).headD 0 = (c.data.length + 4) % 256 ∧
    ((c.to_bytes).headD 0 = c.data.length + 4 ↔ c.data.length ≤ 251) := by
  have h : (c.to_bytes).headD 0 = (c.data.length + 4) % 256 := by
    simp [Command.to_bytes]
  refine ⟨h, ?_⟩
  rw [h]
  omega

/-- C2 counterexample: for a 300-byte payload the emitted length byte is
`304 % 256 = 48`, not `payload.length + 4 = 304`, so the layout equation of
the claim does not hold for every payload. -/
theorem to_bytes_layout_cex :
    (Command.to_bytes ⟨10, .Inventory, List.replicate 300 0⟩).headD 0 = 48 ∧
    300 + 4 ≠ 48 := by
  exact ⟨rfl, by decide⟩

/-- C2 amended: for payloads of at most 251 bytes `Command::to_bytes` emits
exactly `[length, address, operation, ...payload, crc_lo, crc_hi]` with
`length = payload.length + 4` and the MCRF4XX CRC of the pre-CRC prefix
appended little-endian; in particular `{address: 10, operation: Inventory,
payload: []}` encodes to `[4, 10, 1, 171, 182]`. -/
theorem to_bytes_layout :
    (∀ c : Command, c.data.length ≤ 251 →
      c.to_bytes
        = ((c.data.length + 4) :: c.address :: c.command.code :: c.data)
          ++ [calculate_crc ((c.data.length + 4) :: c.address :: c.command.code :: c.data) % 256,
              calculate_crc ((c.data.length + 4) :: c.address :: c.command.code :: c.data) / 256 % 256]) ∧
    Command.to_bytes ⟨10, .Inventory, []⟩ = [4, 10, 1, 171, 182] := by
  constructor
  · intro c h
    have hm : (c.data.length + 4) % 256 = c.data.length + 4 := Nat.mod_eq_of_lt (by omega)
    simp only [Command.to_bytes, hm]
  · decide

/-- Witness for C2 applying the layout equation at a one-byte payload. -/
theorem to_bytes_layout_witness :
    Command.to_bytes ⟨0, .ReadData, [9]⟩
      = [5, 0, 2, 9]
        ++ [calculate_crc [5, 0, 2, 9] % 256, calculate_crc [5, 0, 2, 9] / 256 % 256] :=
  to_bytes_layout.1 ⟨0, .ReadData, [9]⟩ (by decide)

/-- C1 counterexample: the command/response packet shapes differ (a response
carries a status byte commands lack), so decoding an encoded empty-payload
command panics instead of succeeding: the decoder indexes `payload[2]` in a
two-byte payload. -/
theorem roundtrip_empty_payload_cex :
    Response.from_bytes (Command.to_bytes ⟨10, .Inventory, []⟩) = .panic := by
  decide

/-- C1 amended: feeding `Command::to_bytes` output into
`Response::from_bytes` passes the length and CRC checks and recovers the
address and operation, but the first payload byte is consumed as the
response status (decoding panics unless it is an enumerated status code)
and only the remaining payload bytes come back as data; the payload is
never recovered unchanged, and the empty payload panics. -/
theorem roundtrip_shifted (addr : Nat) (op : CommandType) (b : Nat) (rest : List Nat)
    (st : ResponseStatus) (haddr : addr < 256) (hb : b < 256)
    (hrest : ∀ x ∈ rest, x < 256) (hlen : rest.length ≤ 250)
    (hst : ResponseStatus.tryFrom b = some st) :
    Response.from_bytes (Command.to_bytes ⟨addr, op, b :: rest⟩)
      = .ok ⟨addr, op.code, st, rest⟩ := by
  have hcode := CommandType.code_lt op
  have hmem : ∀ x ∈ (addr :: op.code :: b :: rest), x < 256 := by
    intro x hx
    simp only [List.mem_cons] at hx
    rcases hx with rfl | rfl | rfl | hx
    · exact haddr
    · exact hcode
    · exact hb
    · exact hrest x hx
  have h := from_bytes_framed (addr :: op.code :: b :: rest) (by simp)
    (by simp only [List.length_cons]; omega) hmem
  simp only [List.getD_cons_succ, List.getD_cons_zero] at h
  rw [hst] at h
  have hm : ((b :: rest).length + 4) % 256 = rest.length + 5 := by
    simp only [List.length_cons]
    rw [Nat.mod_eq_of_lt (by omega)]
  simp only [Command.to_bytes]
  rw [hm]
  exact h

/-- Witness for C1 applying the shifted round-trip at the one-byte payload
`[0]` (status byte `OK`). -/
theorem roundtrip_shifted_witness :
    Response.from_bytes (Command.to_bytes ⟨10, .Inventory, [0]⟩)
      = .ok ⟨10, 1, .OK, []⟩ :=
  roundtrip_shifted 10 .Inventory 0 [] .OK (by decide) (by decide) (by decide)
    (by decide) (by decide)

/-- C7 counterexample: a CRC-valid, well-framed buffer whose status byte
`0x06` is not an enumerated status makes `Response::from_bytes` panic (the
`.unwrap()` on the failed conversion), not return a typed error. -/
theorem unknown_status_cex :
    Response.from_bytes [5, 0, 1, 6, 152, 17] = .panic ∧
    ResponseStatus.tryFrom 6 = none ∧
    17 * 256 + 152 = calculate_crc [5, 0, 1, 6] := by
  decide

/-- C7 amended: for every CRC-valid, well-framed response buffer whose
status byte is not an enumerated `ResponseStatus` code, decoding panics on
the `.unwrap()` rather than returning a typed error; the unknown byte is
never coerced to a known variant. -/
theorem unknown_status_panics (addr cmd sb : Nat) (data : List Nat)
    (haddr : addr < 256) (hcmd : cmd < 256) (hsb : sb < 256)
    (hdata : ∀ x ∈ data, x < 256) (hlen : data.length ≤ 250)
    (hunk : ResponseStatus.tryFrom sb = none) :
    Response.from_bytes (((data.length + 5) :: addr :: cmd :: sb :: data)
        ++ [calculate_crc ((data.length + 5) :: addr :: cmd :: sb :: data) % 256,
            calculate_crc ((data.length + 5) :: addr :: cmd :: sb :: data) / 256 % 256])
      = .panic := by
  have hmem : ∀ x ∈ (addr :: cmd :: sb :: data), x < 256 := by
    intro x hx
    simp only [List.mem_cons] at hx
    rcases hx with rfl | rfl | rfl | hx
    · exact haddr
    · exact hcmd
    · exact hsb
    · exact hdata x hx
  have h := from_bytes_framed (addr :: cmd :: sb :: data) (by simp)
    (by simp only [List.length_cons]; omega) hmem
  simp only [List.getD_cons_succ, List.getD_cons_zero] at h
  rw [hunk] at h
  exact h

/-- Witness for C7 at the concrete buffer `[5, 0, 1, 6, crc_lo, crc_hi]`. -/
theorem unknown_status_panics_witness :
    Response.from_bytes ([5, 0, 1, 6]
        ++ [calculate_crc [5, 0, 1, 6] % 256, calculate_crc [5, 0, 1, 6] / 256 % 256])
      = .panic :=
  unknown_status_panics 0 1 6 [] (by decide) (by decide) (by decide) (by decide)
    (by decide) (by decide)

/-- C3 counterexample: the buffer `[9, 0, 0]` has trailing bytes `(0, 0)`
(little-endian value 0) that differ from the CRC of the preceding byte, yet
decoding panics on the failed length assertion instead of returning the
Program error "Bad CRC". -/
theorem bad_crc_cex :
    Response.from_bytes [9, 0, 0] = .panic ∧
    calculate_crc [9] ≠ 0 * 256 + 0 := by
  decide

/-- C3 amended: decoding `[5, 0, 1, 251, 242, 61]` yields
`{address: 0, operation_echo: 1, status: NoTags, payload: []}`; and every
buffer of at least two bytes that passes the length-prefix assertion but
whose trailing two bytes (read little-endian) differ from the MCRF4XX CRC
of all preceding bytes decodes to the Program error "Bad CRC", exposing no
fields. -/
theorem bad_crc_rejected :
    Response.from_bytes [5, 0, 1, 251, 242, 61] = .ok ⟨0, 1, .NoTags, []⟩ ∧
    ∀ (b0 : Nat) (rest : List Nat),
      b0 = rest.length → 1 ≤ rest.length →
      ((b0 :: rest).getD rest.length 0) * 256 + ((b0 :: rest).getD (rest.length - 1) 0)
          ≠ calculate_crc ((b0 :: rest).take (rest.length - 1)) →
      Response.from_bytes (b0 :: rest) = .err (.Program "Bad CRC") := by
  constructor
  · decide
  · intro b0 rest hb0 hlen hcrc
    have hblen : ((b0 :: rest) : List Nat).length = rest.length + 1 := by simp
    have e1 : rest.length + 1 - 1 = rest.length := by omega
    have e2 : rest.length + 1 - 2 = rest.length - 1 := by omega
    simp only [Response.from_bytes, hblen, List.headD_cons, e1, e2]
    rw [if_neg (by omega), if_neg (by omega), if_neg (by omega), if_pos hcrc]

/-- Witness for C3 altering the last byte of the valid test vector. -/
theorem bad_crc_rejected_witness :
    Response.from_bytes [5, 0, 1, 251, 242, 62] = .err (.Program "Bad CRC") :=
  bad_crc_rejected.2 5 [0, 1, 251, 242, 62] (by decide) (by decide) (by decide)

end RU5102
